import Mathlib

/-!
Verification of the UniFi Site Manager MCP proxy
(`src/unifi_mcp/unifi_api.py` and `src/unifi_mcp/server.py`).

The embedding models:
  * the process environment as a partial map from variable names to strings
    (`os.getenv` semantics);
  * JSON values as a small inductive type (bodies are passed through opaquely
    by the program, so only structural equality matters);
  * the httpx transport as a function from outbound requests to outcomes —
    a response (status code, raw text, and the result of JSON-decoding the
    text, `none` when the text is not valid JSON) or a transport-level
    failure (httpx `TransportError`, which includes timeouts);
  * Python exceptions as `Except` values: `RuntimeError("UNIFI_API_KEY is
    required")` is `configurationError` (the spec's name for it),
    `float()` rejecting its argument is `valueError`, httpx
    `HTTPStatusError` from `raise_for_status` is `upstreamError` with the
    status and body text, httpx transport failures are `transportError`,
    and a JSON-decode failure of a success body is `decodeError`;
  * each tool of `server.py` as a function returning the invocation outcome
    together with the trace of resource events it performs (client
    construction, each outbound HTTP request, client close), which makes
    resource-lifecycle and I/O-freedom claims statable.
-/

/-- The process environment: `none` models an unset variable (`os.getenv`
returns `None`), `some s` a variable set to `s` (possibly empty). -/
def Env : Type := String → Option String

/-- `os.getenv(name, default)`: the variable's value when set, else the
default. A variable set to the empty string yields the empty string. -/
def getenvD (env : Env) (name dflt : String) : String :=
  (env name).getD dflt

/-- JSON values, used only opaquely: the program returns decoded bodies
verbatim and never inspects them. -/
inductive Json where
  | null : Json
  | bool (b : Bool) : Json
  | num (n : Int) : Json
  | str (s : String) : Json
  | arr (elems : List Json) : Json
  | obj (fields : List (String × Json)) : Json

/-- Python `s.rstrip("/")` on the underlying character list: remove every
trailing `'/'`. -/
def rstripSlashL (cs : List Char) : List Char :=
  ((cs.reverse.dropWhile (fun c => c = '/'))).reverse

/-- Python `s.rstrip("/")`. -/
def rstripSlash (s : String) : String :=
  ⟨rstripSlashL s.data⟩

/-- Python `s.strip("/")`: remove every leading and trailing `'/'`. -/
def stripSlashL (cs : List Char) : List Char :=
  rstripSlashL (cs.dropWhile (fun c => c = '/'))

/-- Python `s.strip("/")`. -/
def stripSlash (s : String) : String :=
  ⟨stripSlashL s.data⟩

deriving instance DecidableEq for Except

/-- Numeric value of a digit string. -/
def digitsVal (cs : List Char) : Nat :=
  cs.foldl (fun a c => a * 10 + (c.toNat - 48)) 0

/-- Python `float(s)` on plain decimal literals: optional sign, digits with
an optional fractional part, and an optional decimal exponent; `none` models
`float()` raising `ValueError`. The value is kept exact as a rational
(rounding to binary floating point is not modelled; neither are the
`inf`/`nan` spellings, surrounding whitespace, or underscore separators,
none of which the claims exercise). -/
def pyFloat? (s : String) : Option ℚ :=
  let cs := s.data
  let negRest : Bool × List Char :=
    match cs with
    | '+' :: r => (false, r)
    | '-' :: r => (true, r)
    | r => (false, r)
  let cs1 := negRest.2
  let ip := cs1.takeWhile Char.isDigit
  let cs2 := cs1.dropWhile Char.isDigit
  let fpRest : List Char × List Char :=
    match cs2 with
    | '.' :: r => (r.takeWhile Char.isDigit, r.dropWhile Char.isDigit)
    | r => ([], r)
  let fp := fpRest.1
  let cs3 := fpRest.2
  if ip.isEmpty && fp.isEmpty then none
  else
    let mant : ℚ :=
      if fp.isEmpty then (digitsVal ip : ℚ)
      else (digitsVal (ip ++ fp) : ℚ) / ((10 : ℚ) ^ fp.length)
    let signed : ℚ := if negRest.1 then -mant else mant
    match cs3 with
    | [] => some signed
    | 'e' :: r => pyFloatExp signed r
    | 'E' :: r => pyFloatExp signed r
    | _ => none
where
  /-- The exponent part `[sign] digits` of a Python float literal, applied
  to an already-parsed signed mantissa. -/
  pyFloatExp (mant : ℚ) (r : List Char) : Option ℚ :=
    let esignRest : Int × List Char :=
      match r with
      | '+' :: r2 => (1, r2)
      | '-' :: r2 => (-1, r2)
      | r2 => (1, r2)
    let ed := esignRest.2.takeWhile Char.isDigit
    let rest := esignRest.2.dropWhile Char.isDigit
    if ed.isEmpty || !rest.isEmpty then none
    else some (mant * (10 : ℚ) ^ (esignRest.1 * (digitsVal ed : Int)))

/-- The failures a tool invocation can propagate, one constructor per Python
exception class reaching the protocol runtime. -/
inductive UErr where
  /-- `RuntimeError("UNIFI_API_KEY is required")` from the client
  constructor; the spec calls it `ConfigurationError`. -/
  | configurationError : UErr
  /-- `ValueError` from `float()` on a malformed `UNIFI_TIMEOUT`. -/
  | valueError : UErr
  /-- httpx `HTTPStatusError` from `raise_for_status()`: carries the
  response status code and body text. -/
  | upstreamError (status : Nat) (text : String) : UErr
  /-- httpx `TransportError`: network failure or timeout. -/
  | transportError : UErr
  /-- failure decoding a success response body as JSON (`r.json()`). -/
  | decodeError : UErr
  /-- the protocol runtime rejecting an invocation whose required argument
  is missing. -/
  | invalidArguments : UErr
deriving DecidableEq

/-- An outbound HTTP request as the underlying httpx client would issue it:
method, the client's configured base URL, the resource path, query
parameters, and the client's default headers. -/
structure Request where
  method : String
  base : String
  path : String
  params : List (String × String)
  headers : List (String × String)
deriving DecidableEq

/-- The outcome of one outbound HTTP call. A response carries the status,
the raw body text, and the result of JSON-decoding that text (`none` when
the text is not valid JSON); `transportFailure` is any httpx
`TransportError`, timeouts included. -/
inductive HttpResult where
  | response (status : Nat) (text : String) (json : Option Json) : HttpResult
  | transportFailure : HttpResult

/-- The upstream side, as a fake transport would implement it: what each
outbound request comes back with. -/
def Transport : Type := Request → HttpResult

/-- `UniFiSiteManagerClient` state after a successful `__init__`: the
configuration fields the constructor stores, plus the base URL and default
headers of the `httpx.AsyncClient` it builds. -/
structure UniFiSiteManagerClient where
  base_url : String
  version : String
  timeout_s : ℚ
  client_base_url : String
  client_headers : List (String × String)
deriving DecidableEq

/-- `UniFiSiteManagerClient.__init__`: fails with `configurationError` when
`UNIFI_API_KEY` is unset or empty (checked first, before any other
configuration is read); then reads `UNIFI_BASE_URL` (default
`https://api.ui.com`, right-stripped of `/`), `UNIFI_API_VERSION` (default
`v1`, stripped of `/` on both sides), and `UNIFI_TIMEOUT` (default `30`,
parsed with `float()`, whose `ValueError` propagates); builds the
`httpx.AsyncClient` bound to `{base_url}/{version}` with the `X-API-KEY`
and `Accept` default headers. Constructing the `httpx.AsyncClient` opens no
connection and issues no request. -/
def UniFiSiteManagerClient.init (env : Env) : Except UErr UniFiSiteManagerClient :=
  let api_key := (env "UNIFI_API_KEY").getD ""
  if api_key = "" then .error .configurationError
  else
    let base_url := rstripSlash (getenvD env "UNIFI_BASE_URL" "https://api.ui.com")
    let version := stripSlash (getenvD env "UNIFI_API_VERSION" "v1")
    match pyFloat? (getenvD env "UNIFI_TIMEOUT" "30") with
    | none => .error .valueError
    | some t =>
        .ok { base_url := base_url
              version := version
              timeout_s := t
              client_base_url := base_url ++ "/" ++ version
              client_headers := [("X-API-KEY", api_key), ("Accept", "application/json")] }

/-- The GET request a client method hands to httpx: the client's configured
base URL and default headers, with the method's path and query parameters. -/
def UniFiSiteManagerClient.mkGet (c : UniFiSiteManagerClient) (path : String)
    (params : List (String × String)) : Request :=
  { method := "GET", base := c.client_base_url, path := path
    params := params, headers := c.client_headers }

/-- The shared body of every client method: `r = await self._client.get(...)`
(one request; a transport failure propagates), `r.raise_for_status()`
(httpx raises `HTTPStatusError` for any non-2xx status, carrying the
response), `return r.json()` (decode failure propagates). Returns the
outcome together with the list of requests issued. -/
def UniFiSiteManagerClient.getJson (c : UniFiSiteManagerClient) (t : Transport)
    (path : String) (params : List (String × String)) :
    Except UErr Json × List Request :=
  match t (c.mkGet path params) with
  | .transportFailure => (.error .transportError, [c.mkGet path params])
  | .response status text json =>
      if 200 ≤ status ∧ status < 300 then
        match json with
        | some j => (.ok j, [c.mkGet path params])
        | none => (.error .decodeError, [c.mkGet path params])
      else (.error (.upstreamError status text), [c.mkGet path params])

/-- `UniFiSiteManagerClient.list_hosts`: one GET to `/hosts`. -/
def UniFiSiteManagerClient.list_hosts (c : UniFiSiteManagerClient) (t : Transport) :
    Except UErr Json × List Request :=
  c.getJson t "/hosts" []

/-- `UniFiSiteManagerClient.list_sites`: one GET to `/sites`. -/
def UniFiSiteManagerClient.list_sites (c : UniFiSiteManagerClient) (t : Transport) :
    Except UErr Json × List Request :=
  c.getJson t "/sites" []

/-- `UniFiSiteManagerClient.list_devices`: one GET to `/devices` with query
parameter `siteId`. -/
def UniFiSiteManagerClient.list_devices (c : UniFiSiteManagerClient) (t : Transport)
    (site_id : String) : Except UErr Json × List Request :=
  c.getJson t "/devices" [("siteId", site_id)]

/-- `UniFiSiteManagerClient.get_isp_metrics`: one GET to `/isp-metrics` with
query parameter `siteId`. -/
def UniFiSiteManagerClient.get_isp_metrics (c : UniFiSiteManagerClient) (t : Transport)
    (site_id : String) : Except UErr Json × List Request :=
  c.getJson t "/isp-metrics" [("siteId", site_id)]

/-- A resource event of one tool invocation: constructing the client,
issuing an outbound HTTP request, closing the client (`close` /
`httpx.AsyncClient.aclose`). -/
inductive Event where
  | clientConstructed : Event
  | httpRequest (r : Request) : Event
  | clientClosed : Event
deriving DecidableEq

/-- The shared body of the four client-backed tools of `server.py`:
`c = UniFiSiteManagerClient()` (a constructor exception propagates, with no
client to close), then `try: return await c.<op>(...) finally: await
c.close()` — the `finally` closes the client exactly once on every outcome
of the operation before the result or exception propagates. Returns the
outcome and the invocation's resource-event trace. -/
def runTool (env : Env) (t : Transport)
    (op : UniFiSiteManagerClient → Transport → Except UErr Json × List Request) :
    Except UErr Json × List Event :=
  match UniFiSiteManagerClient.init env with
  | .error e => (.error e, [])
  | .ok c =>
      let r := op c t
      (r.1, Event.clientConstructed :: r.2.map Event.httpRequest ++ [Event.clientClosed])

/-- Tool `health` of `server.py`: a dictionary built only from constants and
`os.getenv`; no client is constructed and no I/O happens, so its event
trace is empty. -/
def Server.health (env : Env) : List (String × String) × List Event :=
  ([("status", "ok"),
    ("transport", "streamable-http"),
    ("base_url", getenvD env "UNIFI_BASE_URL" "https://api.ui.com"),
    ("api_version", getenvD env "UNIFI_API_VERSION" "v1")], [])

/-- Tool `list_hosts` of `server.py`. -/
def Server.list_hosts (env : Env) (t : Transport) : Except UErr Json × List Event :=
  runTool env t (fun c t => c.list_hosts t)

/-- Tool `list_sites` of `server.py`. -/
def Server.list_sites (env : Env) (t : Transport) : Except UErr Json × List Event :=
  runTool env t (fun c t => c.list_sites t)

/-- Tool `list_devices` of `server.py`, after the protocol runtime has bound
its `site_id: str` argument. -/
def Server.list_devices (env : Env) (t : Transport) (site_id : String) :
    Except UErr Json × List Event :=
  runTool env t (fun c t => c.list_devices t site_id)

/-- Tool `get_isp_metrics` of `server.py`, after the protocol runtime has
bound its `site_id: str` argument. -/
def Server.get_isp_metrics (env : Env) (t : Transport) (site_id : String) :
    Except UErr Json × List Event :=
  runTool env t (fun c t => c.get_isp_metrics t site_id)

/-- The protocol runtime (FastMCP/pydantic) binding a declared `site_id:
str` parameter with no default: the argument must be present (a missing
argument rejects the invocation before the tool body runs), and any string
value — the empty string included — is accepted; no further validation
exists anywhere in the dispatcher layer. -/
def bindRequiredStr (arg : Option String) : Except UErr String :=
  match arg with
  | none => .error .invalidArguments
  | some s => .ok s

/-- Invoking tool `list_devices` through the protocol runtime with a raw
(possibly missing) argument. -/
def Server.list_devices_invoke (env : Env) (t : Transport) (arg : Option String) :
    Except UErr Json × List Event :=
  match bindRequiredStr arg with
  | .error e => (.error e, [])
  | .ok site_id => Server.list_devices env t site_id

/-- Invoking tool `get_isp_metrics` through the protocol runtime with a raw
(possibly missing) argument. -/
def Server.get_isp_metrics_invoke (env : Env) (t : Transport) (arg : Option String) :
    Except UErr Json × List Event :=
  match bindRequiredStr arg with
  | .error e => (.error e, [])
  | .ok site_id => Server.get_isp_metrics env t site_id

/-- A minimal environment carrying only a non-empty API key. -/
def envDefault : Env :=
  fun name => if name = "UNIFI_API_KEY" then some "test-key" else none

/-- An environment with no variables set at all. -/
def envNoKey : Env := fun _ => none

/-- An environment whose API key is set to the empty string. -/
def envEmptyKey : Env :=
  fun name => if name = "UNIFI_API_KEY" then some "" else none

/-- An environment with a non-empty API key but a `UNIFI_TIMEOUT` that
`float()` rejects. -/
def envBadTimeout : Env :=
  fun name =>
    if name = "UNIFI_API_KEY" then some "test-key"
    else if name = "UNIFI_TIMEOUT" then some "abc"
    else none

/-- An environment whose base URL has a trailing slash and whose version
segment has slashes on both sides. -/
def envSlashes : Env :=
  fun name =>
    if name = "UNIFI_API_KEY" then some "test-key"
    else if name = "UNIFI_BASE_URL" then some "https://api.ui.com/"
    else if name = "UNIFI_API_VERSION" then some "/v1/"
    else none

/-- The client `envDefault` construction produces. -/
def clientDefault : UniFiSiteManagerClient :=
  { base_url := "https://api.ui.com"
    version := "v1"
    timeout_s := 30
    client_base_url := "https://api.ui.com/v1"
    client_headers := [("X-API-KEY", "test-key"), ("Accept", "application/json")] }

/-- A fake upstream answering every request with HTTP 200 and body `\x7b\x7d`. -/
def tOk200 : Transport := fun _ => .response 200 "\x7b\x7d" (some (Json.obj []))

/-- A fake upstream answering every request with HTTP 200 and body
`\x7b"hosts": []\x7d`. -/
def tHosts200 : Transport :=
  fun _ => .response 200 "\x7b\"hosts\": []\x7d" (some (Json.obj [("hosts", Json.arr [])]))

/-- A fake upstream returning HTTP 404 for `/devices?siteId=abc` and
HTTP 200 otherwise. -/
def t404Devices : Transport :=
  fun r =>
    if r.path = "/devices" ∧ r.params = [("siteId", "abc")] then
      .response 404 "not found" none
    else .response 200 "\x7b\x7d" (some (Json.obj []))

/-- A fake upstream on which every request fails at the transport level
(e.g. stalls beyond the configured timeout). -/
def tDown : Transport := fun _ => .transportFailure


/-! Helper lemmas about the embedding. -/

/-- A client method's request list is always the singleton of its own GET
request, whatever the transport outcome. -/
theorem getJson_requests (c : UniFiSiteManagerClient) (t : Transport)
    (path : String) (params : List (String × String)) :
    (c.getJson t path params).2 = [c.mkGet path params] := by
  unfold UniFiSiteManagerClient.getJson
  cases ht : t (c.mkGet path params) with
  | transportFailure => rfl
  | response status text json =>
      dsimp only
      by_cases hs : 200 ≤ status ∧ status < 300
      · rw [if_pos hs]; cases json <;> rfl
      · rw [if_neg hs]

/-- A transport-level failure of the single GET yields `transportError`. -/
theorem getJson_transport (c : UniFiSiteManagerClient) (t : Transport)
    (path : String) (params : List (String × String))
    (h : t (c.mkGet path params) = .transportFailure) :
    c.getJson t path params = (.error .transportError, [c.mkGet path params]) := by
  unfold UniFiSiteManagerClient.getJson
  rw [h]

/-- A non-2xx response to the single GET yields `upstreamError` with the
response's status and body text. -/
theorem getJson_upstream (c : UniFiSiteManagerClient) (t : Transport)
    (path : String) (params : List (String × String))
    (status : Nat) (text : String) (j : Option Json)
    (h : t (c.mkGet path params) = .response status text j)
    (hs : ¬ (200 ≤ status ∧ status < 300)) :
    c.getJson t path params =
      (.error (.upstreamError status text), [c.mkGet path params]) := by
  unfold UniFiSiteManagerClient.getJson
  rw [h]
  dsimp only
  rw [if_neg hs]

/-- A 2xx response whose body decodes yields the decoded body unchanged. -/
theorem getJson_ok (c : UniFiSiteManagerClient) (t : Transport)
    (path : String) (params : List (String × String))
    (status : Nat) (text : String) (j : Json)
    (h : t (c.mkGet path params) = .response status text (some j))
    (h1 : 200 ≤ status) (h2 : status < 300) :
    c.getJson t path params = (.ok j, [c.mkGet path params]) := by
  unfold UniFiSiteManagerClient.getJson
  rw [h]
  dsimp only
  rw [if_pos (And.intro h1 h2)]

/-- A constructor failure propagates out of `runTool` with an empty event
trace: no request was issued, nothing was opened or closed. -/
theorem runTool_init_error (env : Env) (t : Transport)
    (op : UniFiSiteManagerClient → Transport → Except UErr Json × List Request)
    (e : UErr) (h : UniFiSiteManagerClient.init env = .error e) :
    runTool env t op = (.error e, []) := by
  unfold runTool
  rw [h]

/-- After a successful construction, `runTool` runs the operation and wraps
its requests between the construction and close events. -/
theorem runTool_ok (env : Env) (t : Transport)
    (op : UniFiSiteManagerClient → Transport → Except UErr Json × List Request)
    (c : UniFiSiteManagerClient) (h : UniFiSiteManagerClient.init env = .ok c) :
    runTool env t op =
      ((op c t).1,
       Event.clientConstructed :: (op c t).2.map Event.httpRequest
         ++ [Event.clientClosed]) := by
  unfold runTool
  rw [h]

/-- HTTP-request events are never close events. -/
theorem count_clientClosed_map_httpRequest (l : List Request) :
    (l.map Event.httpRequest).count Event.clientClosed = 0 := by
  induction l with
  | nil => rfl
  | cons r rs ih => simpa [List.count_cons] using ih

/-- With an empty or unset `UNIFI_API_KEY`, construction fails with the
configuration error. -/
theorem init_error_of_no_key (env : Env)
    (h : (env "UNIFI_API_KEY").getD "" = "") :
    UniFiSiteManagerClient.init env = .error .configurationError := by
  unfold UniFiSiteManagerClient.init
  rw [h]
  rfl

/-- Inversion of a successful construction: every stored field in terms of
the environment. -/
theorem init_ok_inv (env : Env) (c : UniFiSiteManagerClient)
    (h : UniFiSiteManagerClient.init env = .ok c) :
    c.base_url = rstripSlash (getenvD env "UNIFI_BASE_URL" "https://api.ui.com") ∧
    c.version = stripSlash (getenvD env "UNIFI_API_VERSION" "v1") ∧
    c.client_base_url = c.base_url ++ "/" ++ c.version ∧
    c.client_headers =
      [("X-API-KEY", (env "UNIFI_API_KEY").getD ""), ("Accept", "application/json")] ∧
    pyFloat? (getenvD env "UNIFI_TIMEOUT" "30") = some c.timeout_s := by
  simp only [UniFiSiteManagerClient.init] at h
  by_cases hk : (env "UNIFI_API_KEY").getD "" = ""
  · rw [if_pos hk] at h
    cases h
  · rw [if_neg hk] at h
    cases hq : pyFloat? (getenvD env "UNIFI_TIMEOUT" "30") with
    | none => rw [hq] at h; cases h
    | some q =>
        rw [hq] at h
        cases h
        exact ⟨rfl, rfl, rfl, rfl, rfl⟩

/-- With a non-empty `UNIFI_API_KEY` and a timeout value `float()` accepts,
construction succeeds. -/
theorem init_ok_of (env : Env)
    (hk : (env "UNIFI_API_KEY").getD "" ≠ "")
    (q : ℚ) (hq : pyFloat? (getenvD env "UNIFI_TIMEOUT" "30") = some q) :
    ∃ c, UniFiSiteManagerClient.init env = .ok c := by
  simp only [UniFiSiteManagerClient.init]
  rw [if_neg hk, hq]
  exact ⟨_, rfl⟩

/-- The head of `dropWhile p l`, when it exists, fails `p`. -/
theorem head?_dropWhile_false (p : Char → Bool) (l : List Char) (a : Char)
    (h : (l.dropWhile p).head? = some a) : p a = false := by
  have hd := List.head?_dropWhile_not p l
  rw [h] at hd
  exact hd

/-- The last character surviving `rstrip("/")`, when any does, is not a
slash. -/
theorem getLast?_rstripSlashL (cs : List Char) (a : Char)
    (h : (rstripSlashL cs).getLast? = some a) : a ≠ '/' := by
  unfold rstripSlashL at h
  rw [List.getLast?_reverse] at h
  have hp := head?_dropWhile_false _ _ _ h
  simpa using hp

/-- `rstrip("/")` only removes from the end: the first character it keeps
is the original first character. -/
theorem head?_rstripSlashL (cs : List Char) (a : Char)
    (h : (rstripSlashL cs).head? = some a) : cs.head? = some a := by
  have hsplit : rstripSlashL cs ++ (cs.reverse.takeWhile (fun c => c = '/')).reverse = cs := by
    unfold rstripSlashL
    rw [← List.reverse_append, List.takeWhile_append_dropWhile, List.reverse_reverse]
  rw [← hsplit, List.head?_append, h]
  rfl

/-- The first character surviving `strip("/")`, when any does, is not a
slash. -/
theorem head?_stripSlashL (cs : List Char) (a : Char)
    (h : (stripSlashL cs).head? = some a) : a ≠ '/' := by
  unfold stripSlashL at h
  have h2 := head?_rstripSlashL _ _ h
  have hp := head?_dropWhile_false _ _ _ h2
  simpa using hp

/-- The last character surviving `strip("/")`, when any does, is not a
slash. -/
theorem getLast?_stripSlashL (cs : List Char) (a : Char)
    (h : (stripSlashL cs).getLast? = some a) : a ≠ '/' := by
  unfold stripSlashL at h
  exact getLast?_rstripSlashL _ _ h

/-! The claims. -/

/-- C1: for each of the four client-backed tools, once the Upstream Client
has been constructed, its close operation runs exactly once during the
invocation, whatever the outcome of the client operation — success,
upstream-error failure, transport failure, or a body-decode failure. -/
theorem C1_client_closed_exactly_once (env : Env) (t : Transport) (sid : String)
    (c : UniFiSiteManagerClient) (h : UniFiSiteManagerClient.init env = .ok c) :
    (Server.list_hosts env t).2.count Event.clientClosed = 1 ∧
    (Server.list_sites env t).2.count Event.clientClosed = 1 ∧
    (Server.list_devices env t sid).2.count Event.clientClosed = 1 ∧
    (Server.get_isp_metrics env t sid).2.count Event.clientClosed = 1 := by
  have key : ∀ op, (runTool env t op).2.count Event.clientClosed = 1 := by
    intro op
    rw [runTool_ok env t op c h]
    simp [List.count_cons, List.count_append, count_clientClosed_map_httpRequest]
  exact ⟨key _, key _, key _, key _⟩

/-- C1 witness: at a concrete environment and fake upstream, each tool's
trace closes the client exactly once. -/
theorem C1_witness :
    (Server.list_hosts envDefault tOk200).2.count Event.clientClosed = 1 ∧
    (Server.list_sites envDefault tOk200).2.count Event.clientClosed = 1 ∧
    (Server.list_devices envDefault tOk200 "abc").2.count Event.clientClosed = 1 ∧
    (Server.get_isp_metrics envDefault tOk200 "abc").2.count Event.clientClosed = 1 :=
  C1_client_closed_exactly_once envDefault tOk200 "abc" clientDefault (by decide)

/-- C2 counterexample: an environment with a non-empty API key whose
`UNIFI_TIMEOUT` is `"abc"`: construction does not succeed — `float("abc")`
raises `ValueError` — refuting "for every environment with a non-empty API
key, construction succeeds". -/
theorem C2_counterexample :
    envBadTimeout "UNIFI_API_KEY" = some "test-key" ∧
    UniFiSiteManagerClient.init envBadTimeout = .error UErr.valueError := by
  exact ⟨by decide, by decide⟩

/-- C2 (amended): with `UNIFI_API_KEY` unset or empty, construction fails
with the configuration error and the failing tool invocation performs no
resource event at all — in particular no HTTP request; with a non-empty key
and a `UNIFI_TIMEOUT` value that `float()` accepts, construction
succeeds. -/
theorem C2_config_error_before_io (env : Env) (t : Transport) (sid : String) :
    ((env "UNIFI_API_KEY").getD "" = "" →
      UniFiSiteManagerClient.init env = .error .configurationError ∧
      Server.list_hosts env t = (.error .configurationError, []) ∧
      Server.list_sites env t = (.error .configurationError, []) ∧
      Server.list_devices env t sid = (.error .configurationError, []) ∧
      Server.get_isp_metrics env t sid = (.error .configurationError, [])) ∧
    ((env "UNIFI_API_KEY").getD "" ≠ "" →
      (∃ q, pyFloat? (getenvD env "UNIFI_TIMEOUT" "30") = some q) →
      ∃ c, UniFiSiteManagerClient.init env = .ok c) := by
  constructor
  · intro hk
    have hi := init_error_of_no_key env hk
    exact ⟨hi, runTool_init_error _ _ _ _ hi, runTool_init_error _ _ _ _ hi,
           runTool_init_error _ _ _ _ hi, runTool_init_error _ _ _ _ hi⟩
  · rintro hk ⟨q, hq⟩
    exact init_ok_of env hk q hq

/-- C2 witness: with no key set, construction and a tool invocation fail
with the configuration error and an empty trace; with a key set,
construction succeeds. -/
theorem C2_witness :
    (UniFiSiteManagerClient.init envNoKey = .error .configurationError ∧
     Server.list_hosts envNoKey tOk200 = (.error .configurationError, [])) ∧
    (∃ c, UniFiSiteManagerClient.init envDefault = .ok c) := by
  refine ⟨?_, ?_⟩
  · have h := (C2_config_error_before_io envNoKey tOk200 "abc").1 (by decide)
    exact ⟨h.1, h.2.1⟩
  · exact (C2_config_error_before_io envDefault tOk200 "abc").2 (by decide) ⟨30, by decide⟩

/-- C3: every client operation turns a non-2xx response to its single GET
into `upstreamError` carrying that status and the response body, and the
dispatcher surfaces the failure unchanged. -/
theorem C3_upstream_error (c : UniFiSiteManagerClient) (t : Transport)
    (status : Nat) (text : String) (j : Option Json) (sid : String)
    (hs : ¬ (200 ≤ status ∧ status < 300)) :
    (t (c.mkGet "/hosts" []) = .response status text j →
      c.list_hosts t = (.error (.upstreamError status text), [c.mkGet "/hosts" []])) ∧
    (t (c.mkGet "/sites" []) = .response status text j →
      c.list_sites t = (.error (.upstreamError status text), [c.mkGet "/sites" []])) ∧
    (t (c.mkGet "/devices" [("siteId", sid)]) = .response status text j →
      c.list_devices t sid =
        (.error (.upstreamError status text), [c.mkGet "/devices" [("siteId", sid)]])) ∧
    (t (c.mkGet "/isp-metrics" [("siteId", sid)]) = .response status text j →
      c.get_isp_metrics t sid =
        (.error (.upstreamError status text), [c.mkGet "/isp-metrics" [("siteId", sid)]])) ∧
    (∀ env, UniFiSiteManagerClient.init env = .ok c →
      t (c.mkGet "/devices" [("siteId", sid)]) = .response status text j →
      (Server.list_devices env t sid).1 = .error (.upstreamError status text)) := by
  refine ⟨fun hr => getJson_upstream c t _ _ _ _ _ hr hs,
          fun hr => getJson_upstream c t _ _ _ _ _ hr hs,
          fun hr => getJson_upstream c t _ _ _ _ _ hr hs,
          fun hr => getJson_upstream c t _ _ _ _ _ hr hs,
          fun env henv hr => ?_⟩
  show (runTool env t (fun c t => c.list_devices t sid)).1 = _
  rw [runTool_ok env t _ c henv]
  show (c.list_devices t sid).1 = _
  unfold UniFiSiteManagerClient.list_devices
  rw [getJson_upstream c t _ _ _ _ _ hr hs]

/-- C3 witness: a fake upstream answering 404 on `/devices?siteId=abc`
makes `list_devices("abc")` fail with `upstreamError 404`. -/
theorem C3_witness :
    (Server.list_devices envDefault t404Devices "abc").1 =
      .error (.upstreamError 404 "not found") :=
  (C3_upstream_error clientDefault t404Devices 404 "not found" none "abc"
      (by decide)).2.2.2.2 envDefault (by decide) rfl

/-- C4: when the outbound call fails at the transport level (network
failure, or stalling beyond the configured timeout), every operation fails
with `transportError`, the failure surfaces through the dispatcher to the
invocation's caller, and exactly one request was issued — no retry. -/
theorem C4_transport_error (env : Env) (t : Transport) (sid : String)
    (c : UniFiSiteManagerClient) (h : UniFiSiteManagerClient.init env = .ok c)
    (hd : ∀ r, t r = .transportFailure) :
    Server.list_hosts env t =
      (.error .transportError,
       [.clientConstructed, .httpRequest (c.mkGet "/hosts" []), .clientClosed]) ∧
    Server.list_sites env t =
      (.error .transportError,
       [.clientConstructed, .httpRequest (c.mkGet "/sites" []), .clientClosed]) ∧
    Server.list_devices env t sid =
      (.error .transportError,
       [.clientConstructed, .httpRequest (c.mkGet "/devices" [("siteId", sid)]),
        .clientClosed]) ∧
    Server.get_isp_metrics env t sid =
      (.error .transportError,
       [.clientConstructed, .httpRequest (c.mkGet "/isp-metrics" [("siteId", sid)]),
        .clientClosed]) := by
  have k : ∀ path params,
      c.getJson t path params = (.error .transportError, [c.mkGet path params]) :=
    fun path params => getJson_transport c t path params (hd _)
  refine ⟨?_, ?_, ?_, ?_⟩ <;>
    · show runTool env t _ = _
      rw [runTool_ok env t _ c h]
      simp only [UniFiSiteManagerClient.list_hosts, UniFiSiteManagerClient.list_sites,
                 UniFiSiteManagerClient.list_devices, UniFiSiteManagerClient.get_isp_metrics, k]
      rfl

/-- C4 witness: at a concrete environment and a fake upstream that is down
for every request, each tool fails with `transportError` after exactly one
request. -/
theorem C4_witness :
    Server.list_hosts envDefault tDown =
      (.error .transportError,
       [.clientConstructed, .httpRequest (clientDefault.mkGet "/hosts" []),
        .clientClosed]) ∧
    Server.list_sites envDefault tDown =
      (.error .transportError,
       [.clientConstructed, .httpRequest (clientDefault.mkGet "/sites" []),
        .clientClosed]) ∧
    Server.list_devices envDefault tDown "abc" =
      (.error .transportError,
       [.clientConstructed, .httpRequest (clientDefault.mkGet "/devices" [("siteId", "abc")]),
        .clientClosed]) ∧
    Server.get_isp_metrics envDefault tDown "abc" =
      (.error .transportError,
       [.clientConstructed,
        .httpRequest (clientDefault.mkGet "/isp-metrics" [("siteId", "abc")]),
        .clientClosed]) :=
  C4_transport_error envDefault tDown "abc" clientDefault (by decide) (fun _ => rfl)

/-- C5: a 2xx response with a JSON-decodable body makes every operation
return the decoded body unchanged — no validation, renaming or enrichment —
and the dispatcher passes it through. -/
theorem C5_success_passthrough (c : UniFiSiteManagerClient) (t : Transport)
    (status : Nat) (text : String) (j : Json) (sid : String)
    (h1 : 200 ≤ status) (h2 : status < 300) :
    (t (c.mkGet "/hosts" []) = .response status text (some j) →
      c.list_hosts t = (.ok j, [c.mkGet "/hosts" []])) ∧
    (t (c.mkGet "/sites" []) = .response status text (some j) →
      c.list_sites t = (.ok j, [c.mkGet "/sites" []])) ∧
    (t (c.mkGet "/devices" [("siteId", sid)]) = .response status text (some j) →
      c.list_devices t sid = (.ok j, [c.mkGet "/devices" [("siteId", sid)]])) ∧
    (t (c.mkGet "/isp-metrics" [("siteId", sid)]) = .response status text (some j) →
      c.get_isp_metrics t sid = (.ok j, [c.mkGet "/isp-metrics" [("siteId", sid)]])) ∧
    (∀ env, UniFiSiteManagerClient.init env = .ok c →
      t (c.mkGet "/hosts" []) = .response status text (some j) →
      (Server.list_hosts env t).1 = .ok j) := by
  refine ⟨fun hr => getJson_ok c t _ _ _ _ _ hr h1 h2,
          fun hr => getJson_ok c t _ _ _ _ _ hr h1 h2,
          fun hr => getJson_ok c t _ _ _ _ _ hr h1 h2,
          fun hr => getJson_ok c t _ _ _ _ _ hr h1 h2,
          fun env henv hr => ?_⟩
  show (runTool env t (fun c t => c.list_hosts t)).1 = _
  rw [runTool_ok env t _ c henv]
  show (c.list_hosts t).1 = _
  unfold UniFiSiteManagerClient.list_hosts
  rw [getJson_ok c t _ _ _ _ _ hr h1 h2]

/-- C5 witness: a fake upstream answering 200 with body `\x7b"hosts": []\x7d`
makes `list_hosts()` return exactly that body. -/
theorem C5_witness :
    (Server.list_hosts envDefault tHosts200).1 = .ok (Json.obj [("hosts", Json.arr [])]) :=
  (C5_success_passthrough clientDefault tHosts200 200 "\x7b\"hosts\": []\x7d"
      (Json.obj [("hosts", Json.arr [])]) "abc" (by decide) (by decide)).2.2.2.2
    envDefault (by decide) rfl

/-- C6: `health` builds its mapping from constants and the environment with
the documented defaults, has exactly the four keys `status`, `transport`,
`base_url`, `api_version`, constructs no client and performs no I/O (its
event trace is empty); on an empty environment both defaults appear. -/
theorem C6_health (env : Env) :
    Server.health env =
      ([("status", "ok"), ("transport", "streamable-http"),
        ("base_url", getenvD env "UNIFI_BASE_URL" "https://api.ui.com"),
        ("api_version", getenvD env "UNIFI_API_VERSION" "v1")], []) ∧
    (Server.health env).1.map Prod.fst = ["status", "transport", "base_url", "api_version"] ∧
    Server.health envNoKey =
      ([("status", "ok"), ("transport", "streamable-http"),
        ("base_url", "https://api.ui.com"), ("api_version", "v1")], []) :=
  ⟨rfl, rfl, rfl⟩

/-- C7: each operation issues exactly one HTTP GET per call, to its fixed
resource path with exactly its specified query parameters, whatever the
transport outcome. -/
theorem C7_one_get_fixed_path (c : UniFiSiteManagerClient) (t : Transport) (sid : String) :
    (c.list_hosts t).2 = [c.mkGet "/hosts" []] ∧
    (c.list_sites t).2 = [c.mkGet "/sites" []] ∧
    (c.list_devices t sid).2 = [c.mkGet "/devices" [("siteId", sid)]] ∧
    (c.get_isp_metrics t sid).2 = [c.mkGet "/isp-metrics" [("siteId", sid)]] ∧
    (∀ path params, (c.mkGet path params).method = "GET" ∧
      (c.mkGet path params).path = path ∧ (c.mkGet path params).params = params) :=
  ⟨getJson_requests c t _ _, getJson_requests c t _ _, getJson_requests c t _ _,
   getJson_requests c t _ _, fun _ _ => ⟨rfl, rfl, rfl⟩⟩

/-- C8 counterexample: a present but empty site identifier is not rejected
anywhere in the dispatcher layer: `list_devices` with `site_id=""`
constructs a client, issues the GET with `siteId` empty, and returns the
upstream body — refuting "require … a non-empty string". -/
theorem C8_counterexample :
    Server.list_devices_invoke envDefault tOk200 (some "") =
      (.ok (Json.obj []),
       [Event.clientConstructed,
        Event.httpRequest (clientDefault.mkGet "/devices" [("siteId", "")]),
        Event.clientClosed]) := rfl

/-- C8 (amended): `list_devices` and `get_isp_metrics` require the site
identifier to be present — a missing argument is rejected by the dispatcher
layer before any client exists — but nothing beyond presence is validated:
any present string, the empty string included, is passed through verbatim
as the `siteId` query parameter, and an upstream rejection surfaces as
`upstreamError`. -/
theorem C8_presence_only (env : Env) (t : Transport) (arg : Option String) :
    (arg = none →
      Server.list_devices_invoke env t arg = (.error .invalidArguments, []) ∧
      Server.get_isp_metrics_invoke env t arg = (.error .invalidArguments, [])) ∧
    (∀ s, arg = some s →
      Server.list_devices_invoke env t arg = Server.list_devices env t s ∧
      Server.get_isp_metrics_invoke env t arg = Server.get_isp_metrics env t s) ∧
    (∀ s c, UniFiSiteManagerClient.init env = .ok c →
      (Server.list_devices env t s).2 =
        [.clientConstructed, .httpRequest (c.mkGet "/devices" [("siteId", s)]),
         .clientClosed] ∧
      (Server.get_isp_metrics env t s).2 =
        [.clientConstructed, .httpRequest (c.mkGet "/isp-metrics" [("siteId", s)]),
         .clientClosed] ∧
      (∀ status text j, t (c.mkGet "/devices" [("siteId", s)]) = .response status text j →
        ¬ (200 ≤ status ∧ status < 300) →
        (Server.list_devices env t s).1 = .error (.upstreamError status text))) := by
  refine ⟨fun hn => ?_, fun s hs => ?_, fun s c hc => ⟨?_, ?_, fun status text j hr hst => ?_⟩⟩
  · subst hn; exact ⟨rfl, rfl⟩
  · subst hs; exact ⟨rfl, rfl⟩
  · show (runTool env t (fun c t => c.list_devices t s)).2 = _
    rw [runTool_ok env t _ c hc]
    show Event.clientConstructed :: (c.list_devices t s).2.map _ ++ _ = _
    unfold UniFiSiteManagerClient.list_devices
    rw [getJson_requests c t _ _]
    rfl
  · show (runTool env t (fun c t => c.get_isp_metrics t s)).2 = _
    rw [runTool_ok env t _ c hc]
    show Event.clientConstructed :: (c.get_isp_metrics t s).2.map _ ++ _ = _
    unfold UniFiSiteManagerClient.get_isp_metrics
    rw [getJson_requests c t _ _]
    rfl
  · show (runTool env t (fun c t => c.list_devices t s)).1 = _
    rw [runTool_ok env t _ c hc]
    show (c.list_devices t s).1 = _
    unfold UniFiSiteManagerClient.list_devices
    rw [getJson_upstream c t _ _ _ _ _ hr hst]

/-- C8 witness: a missing argument is rejected with no events; a present
identifier is forwarded and a 404 upstream rejection surfaces. -/
theorem C8_witness :
    Server.list_devices_invoke envDefault t404Devices none = (.error .invalidArguments, []) ∧
    (Server.list_devices envDefault t404Devices "abc").1 =
      .error (.upstreamError 404 "not found") :=
  ⟨((C8_presence_only envDefault t404Devices none).1 rfl).1,
   ((C8_presence_only envDefault t404Devices (some "abc")).2.2 "abc" clientDefault
      (by decide)).2.2 404 "not found" none rfl (by decide)⟩

/-- C9: a successful construction stores the configured base URL, version
and timeout (defaults `https://api.ui.com`, `v1`, 30 when the variables are
unset) and binds the connection context to `{base_url}/{version}` with the
`X-API-KEY` and `Accept: application/json` headers. -/
theorem C9_construction_config (env : Env) (k : String) (c : UniFiSiteManagerClient)
    (hk : env "UNIFI_API_KEY" = some k)
    (h : UniFiSiteManagerClient.init env = .ok c) :
    c.client_base_url = c.base_url ++ "/" ++ c.version ∧
    c.client_headers = [("X-API-KEY", k), ("Accept", "application/json")] ∧
    (env "UNIFI_BASE_URL" = none → c.base_url = "https://api.ui.com") ∧
    (env "UNIFI_API_VERSION" = none → c.version = "v1") ∧
    (env "UNIFI_TIMEOUT" = none → c.timeout_s = 30) := by
  obtain ⟨hb, hv, hcb, hh, ht⟩ := init_ok_inv env c h
  refine ⟨hcb, ?_, ?_, ?_, ?_⟩
  · rw [hh, hk]
    rfl
  · intro hn
    rw [hb]
    unfold getenvD
    rw [hn]
    decide
  · intro hn
    rw [hv]
    unfold getenvD
    rw [hn]
    decide
  · intro hn
    have h1 : getenvD env "UNIFI_TIMEOUT" "30" = "30" := by
      unfold getenvD; rw [hn]; rfl
    rw [h1] at ht
    have h2 : pyFloat? "30" = some (30 : ℚ) := by decide
    rw [h2] at ht
    exact (Option.some.inj ht).symm

/-- C9 witness: at an environment carrying only the API key, the
constructed client has the default base, version and timeout and the
documented headers. -/
theorem C9_witness :
    clientDefault.client_base_url = clientDefault.base_url ++ "/" ++ clientDefault.version ∧
    clientDefault.client_headers = [("X-API-KEY", "test-key"), ("Accept", "application/json")] ∧
    clientDefault.base_url = "https://api.ui.com" ∧
    clientDefault.version = "v1" ∧
    clientDefault.timeout_s = 30 := by
  obtain ⟨a, b, d, e, f⟩ :=
    C9_construction_config envDefault "test-key" clientDefault (by decide) (by decide)
  exact ⟨a, b, d (by decide), e (by decide), f (by decide)⟩

/-- C10: the constructor strips every trailing slash from the base URL and
every leading and trailing slash from the version segment, so the stored
base URL never ends in `/`, the stored version neither starts nor ends in
`/`, the base address is `{base_url}/{version}`, and for base
`https://api.ui.com/` with version `/v1/` it is exactly
`https://api.ui.com/v1`. -/
theorem C10_slash_normalization (env : Env) (c : UniFiSiteManagerClient)
    (h : UniFiSiteManagerClient.init env = .ok c) :
    (∀ a, c.base_url.data.getLast? = some a → a ≠ '/') ∧
    (∀ a, c.version.data.getLast? = some a → a ≠ '/') ∧
    (∀ a, c.version.data.head? = some a → a ≠ '/') ∧
    c.client_base_url = c.base_url ++ "/" ++ c.version ∧
    (UniFiSiteManagerClient.init envSlashes).map (fun d => d.client_base_url) =
      .ok "https://api.ui.com/v1" := by
  obtain ⟨hb, hv, hcb, -, -⟩ := init_ok_inv env c h
  refine ⟨?_, ?_, ?_, hcb, by decide⟩
  · intro a ha
    rw [hb] at ha
    exact getLast?_rstripSlashL _ _ ha
  · intro a ha
    rw [hv] at ha
    exact getLast?_stripSlashL _ _ ha
  · intro a ha
    rw [hv] at ha
    exact head?_stripSlashL _ _ ha

/-- C10 witness: construction from base `https://api.ui.com/` and version
`/v1/` yields base address exactly `https://api.ui.com/v1`. -/
theorem C10_witness :
    clientDefault.client_base_url = clientDefault.base_url ++ "/" ++ clientDefault.version ∧
    (UniFiSiteManagerClient.init envSlashes).map (fun d => d.client_base_url) =
      .ok "https://api.ui.com/v1" :=
  ⟨(C10_slash_normalization envSlashes clientDefault (by decide)).2.2.2.1,
   (C10_slash_normalization envSlashes clientDefault (by decide)).2.2.2.2⟩
